import Mathlib

/-!
Formal model of the generation-orchestration layer of the Fibo Command Center
backend (`backend/routers/generation.py`), together with theorems about its
request fingerprint, result cache, retry loop, quality scoring, batch
coordination and generation-record lifecycle.

Conventions of the embedding:
* Python dicts keyed by strings become association lists (`List (String × _)`)
  with at most one binding per key; dict assignment is modelled by
  remove-then-prepend, and lookup by `List.find?`.
* Wall-clock instants are natural numbers counting seconds
  (`datetime.utcnow()` differences become truncated subtraction, which agrees
  with the code because timestamps are only ever compared against later reads).
* Exceptions become `Except String`, an exception being modelled by the
  message it stringifies to.
* Python floats become rationals (`ℚ`); every float literal of the scoring
  code is an exact decimal, and the properties proved below are insensitive to
  the representation.
-/

namespace FiboGen

/-- Single image-generation request: the `GenerationRequest` pydantic model of
`backend/routers/generation.py`.  The per-field enumeration validators are not
needed by any property below; field values are carried as given.  Being a Lean
structure, a request has no notion of field insertion order, which is exactly
the order-independence the canonical fingerprint below provides. -/
structure GenerationRequest where
  prompt : String
  mode : String := "ai"
  camera_angle : Option String := none
  fov : Option String := none
  lighting : Option String := none
  color_palette : Option String := none
  composition : Option String := none
  style : Option String := none
  project_id : Option Int := none
  user_id : Int := 1
  use_cache : Bool := true
  max_retries : Nat := 3
deriving DecidableEq

/-- Result dictionary returned by the upstream `fibo_integration.generate`
call: an optional image reference plus the parameter dictionary actually used
(values optional strings, `None` meaning the parameter was absent). -/
structure GenResult where
  image_url : Option String := none
  parameters : List (String × Option String) := []
deriving DecidableEq

/-- The `response_data` dictionary built by `generate_image` on success, which
is also what `GenerationResponse` carries and what the cache stores.  `cached`
defaults to `false` exactly as in the pydantic model. -/
structure ResponseData where
  id : Int
  status : String
  image_url : Option String
  parameters : List (String × Option String)
  quality_score : Option ℚ
  generation_time : Option ℚ
  reasoning : Option String
  cached : Bool := false
  retry_count : Nat := 0
deriving DecidableEq

/-- Decidable equality on modelled exception-or-value outcomes, so that
concrete runs of the model can be checked by `decide`. -/
instance {ε α : Type} [DecidableEq ε] [DecidableEq α] :
    DecidableEq (Except ε α)
  | .ok a, .ok b =>
    if h : a = b then .isTrue (by rw [h]) else .isFalse (by simp [h])
  | .ok _, .error _ => .isFalse (by simp)
  | .error _, .ok _ => .isFalse (by simp)
  | .error e1, .error e2 =>
    if h : e1 = e2 then .isTrue (by rw [h]) else .isFalse (by simp [h])

/-- One entry of the module-level `generation_cache` dict: the cached
response payload together with the `datetime.utcnow()` timestamp recorded by
`_cache_result`. -/
structure CacheEntry where
  data : ResponseData
  timestamp : Nat
deriving DecidableEq

/-- The module-level `generation_cache : Dict[str, Dict[str, Any]]`. -/
abbrev Cache := List (String × CacheEntry)

/-- The `BatchGenerationResponse` pydantic model (lines 161-167). -/
structure BatchGenerationResponse where
  total : Nat
  successful : Nat
  failed : Nat
  results : List (Option ResponseData)
  errors : List (Option String)
deriving DecidableEq

/-- Observable effects of one `generate_image` execution, in program order:
database-record creation and status updates, the intent-resolver call, the
upstream generation calls (by zero-indexed attempt), the backoff sleeps (in
seconds), and cache writes.  `dbUpdate` carries which of result reference,
quality score and error message the update sets. -/
inductive Event where
  | dbCreate (status : String)
  | resolverCall
  | upstream (attempt : Nat)
  | sleep (seconds : Nat)
  | dbUpdate (status : String) (resultSet scoreSet errorSet : Bool)
  | cachePut (key : String)
deriving DecidableEq

/-- Environment of one `generate_image` run: the behaviour of the external
collaborators and the ambient quantities the code reads.  `now` is the wall
clock at the cache check (seconds); `intentResult` is the outcome of
`fibo_agent.analyze_intent` (the resolved parameter dictionary and reasoning
blob, or the message of the exception it raised); `genOutcome attempt` is the
outcome of the `fibo_integration.generate` call on that zero-indexed attempt;
`newId` is the identity the record store assigns to the new generation row;
`genTime` is the measured wall-clock duration. -/
structure Env where
  now : Nat
  intentResult : Except String (List (String × Option String) × Option String)
  genOutcome : Nat → Except String GenResult
  newId : Int
  genTime : ℚ

/-- JSON escaping of one character as `json.dumps` performs it on the
backslash and the double quote (the only escapes a prompt or parameter value
of this API can require). -/
def jsonEscapeChar (c : Char) : List Char :=
  if c = '\\' then ['\\', '\\']
  else if c = '\"' then ['\\', '\"']
  else [c]

/-- JSON escaping of a string value. -/
def jsonEscape (s : String) : String :=
  ⟨s.data.flatMap jsonEscapeChar⟩

/-- JSON rendering of a nullable string value as `json.dumps` produces it
(`null`, or the quoted string with its content escaped). -/
def jsonOptStr : Option String → String
  | none => "null"
  | some s => "\x22" ++ jsonEscape s ++ "\x22"

/-- JSON rendering of a mandatory string value. -/
def jsonStr (s : String) : String := jsonOptStr (some s)

/-- The `_generate_cache_key` fingerprint (lines 28-41): the eight
semantically relevant fields are serialised with `json.dumps(..., sort_keys=True)`
— keys in alphabetical order with `": "` and `", "` separators — and the code
then MD5-hashes that canonical string.  MD5 is a fixed pure function of its
input string, so every fingerprint-equality property proved below transfers
verbatim to the hashed form; the model therefore uses the canonical string
itself as the fingerprint. -/
def _generate_cache_key (request : GenerationRequest) : String :=
  "\x7b\x22camera_angle\x22: " ++ jsonOptStr request.camera_angle ++
  ", \x22color_palette\x22: " ++ jsonOptStr request.color_palette ++
  ", \x22composition\x22: " ++ jsonOptStr request.composition ++
  ", \x22fov\x22: " ++ jsonOptStr request.fov ++
  ", \x22lighting\x22: " ++ jsonOptStr request.lighting ++
  ", \x22mode\x22: " ++ jsonStr request.mode ++
  ", \x22prompt\x22: " ++ jsonStr request.prompt ++
  ", \x22style\x22: " ++ jsonOptStr request.style ++ "\x7d"

/-- `CACHE_TTL = timedelta(hours=1)`, in seconds. -/
def CACHE_TTL : Nat := 3600

/-- Python dict membership/lookup `generation_cache[cache_key]`. -/
def cacheLookup (c : Cache) (k : String) : Option CacheEntry :=
  (c.find? fun p => p.1 == k).map Prod.snd

/-- Python `del generation_cache[cache_key]`. -/
def cacheDelete (c : Cache) (k : String) : Cache :=
  c.filter fun p => p.1 != k

/-- `_cache_result` (lines 58-64): store the payload under the key with the
current time, overwriting any prior entry for the same key. -/
def _cache_result (c : Cache) (cache_key : String) (data : ResponseData)
    (now : Nat) : Cache :=
  (cache_key, ⟨data, now⟩) :: cacheDelete c cache_key

/-- `_get_cached_result` (lines 44-55): return the payload if the key is
present and younger than `CACHE_TTL`; an expired entry is deleted (lazy
eviction) and `None` returned; an absent key returns `None` and leaves the
cache untouched.  The function returns the possibly-updated cache alongside
the optional payload. -/
def _get_cached_result (c : Cache) (cache_key : String) (now : Nat) :
    Option ResponseData × Cache :=
  match cacheLookup c cache_key with
  | some cached =>
    if now - cached.timestamp < CACHE_TTL then (some cached.data, c)
    else (none, cacheDelete c cache_key)
  | none => (none, c)

/-- Python truthiness of an optional string (`if result.get('image_url'):`):
`None` and the empty string are falsy. -/
def pyTruthyStr : Option String → Bool
  | none => false
  | some s => s != ""

/-- `_calculate_quality_score` (lines 67-80): base `0.5`, plus
`min(param_count * 0.05, 0.3)` for the non-null resolved parameters, plus
`0.2` when the result carries a truthy `image_url`, finally `min(score, 1.0)`. -/
def _calculate_quality_score (parameters : List (String × Option String))
    (result : GenResult) : ℚ :=
  let score : ℚ := 1/2
  let param_count : Nat := (parameters.filter fun p => p.2.isSome).length
  let score := score + min ((param_count : ℚ) * (5/100)) (3/10)
  let score := if pyTruthyStr result.image_url then score + 2/10 else score
  min score 1

/-- Modelled from the spec, for comparison with `_calculate_quality_score`:
"base 0.5; add 0.05 per non-null resolved parameter, capped contribution of
0.3; add a flat 0.2 bonus if the result carries a usable output reference;
final value clamped to [0,1]". -/
def spec_quality_score (parameters : List (String × Option String))
    (result : GenResult) : ℚ :=
  let raw : ℚ := 1/2
    + min (((parameters.filter fun p => p.2.isSome).length : ℚ) * (5/100)) (3/10)
    + (if pyTruthyStr result.image_url then 2/10 else 0)
  min (max raw 0) 1

/-- The retry loop around `fibo_integration.generate` (lines 245-266 of
`generate_image`, duplicated verbatim for manual mode at lines 274-295).
`gen attempt` is the outcome of the opaque upstream call on the zero-indexed
`attempt`; `retry_count` carries the Python `retry_count` variable, which the
loop sets to `attempt + 1` on each failure; `remaining` counts the loop
iterations still to come after the current one (`max_retries - attempt`).
The returned event list records the upstream calls and backoff sleeps in
order.  A successful attempt breaks out with the result and the current
`retry_count`; a failure with no iterations remaining re-raises the last
error. -/
def retryGo (gen : Nat → Except String GenResult) :
    Nat → Nat → Nat → Except String (GenResult × Nat) × List Event
  | attempt, retry_count, 0 =>
    match gen attempt with
    | .ok result => (.ok (result, retry_count), [.upstream attempt])
    | .error e => (.error e, [.upstream attempt])
  | attempt, retry_count, remaining + 1 =>
    match gen attempt with
    | .ok result => (.ok (result, retry_count), [.upstream attempt])
    | .error _ =>
      let rest := retryGo gen (attempt + 1) (attempt + 1) remaining
      (rest.1, .upstream attempt :: .sleep (2 ^ attempt) :: rest.2)

/-- Entry point of the retry loop: `for attempt in range(max_retries + 1)`
with `retry_count = 0` initially. -/
def retryExecute (gen : Nat → Except String GenResult) (max_retries : Nat) :
    Except String (GenResult × Nat) × List Event :=
  retryGo gen 0 0 max_retries

/-- Event trace of a retry run that starts at attempt `first` and performs
`failures` failing attempts (each followed by its `2 ^ attempt` backoff sleep)
before a final attempt. -/
def attemptTrace (first : Nat) : Nat → List Event
  | 0 => [.upstream first]
  | failures + 1 =>
    .upstream first :: .sleep (2 ^ first) :: attemptTrace (first + 1) failures

/-- `BatchGenerationRequest` field validation (lines 154-158): the request
list is declared with `min_items=1, max_items=50`, so pydantic rejects any
batch outside those bounds before the handler runs. -/
def batchRequestsValid (requests : List GenerationRequest) : Bool :=
  decide (1 ≤ requests.length) && decide (requests.length ≤ 50)

/-- `process_single_generation` of `batch_generate_images` (lines 465-475).
`outcome` is what the inner `generate_image` call did for this item: its
response, or the message of the exception it raised.  On failure with
`continue_on_error` the error is recorded per item as
`"Generation {index+1} failed: ..."`; without it the original exception is
re-raised by the bare `raise`. -/
def process_single_generation (continue_on_error : Bool) (index : Nat)
    (outcome : Except String ResponseData) :
    Except String (Nat × Option ResponseData × Option String) :=
  match outcome with
  | .ok result => .ok (index, some result, none)
  | .error e =>
    let error_msg := "Generation " ++ toString (index + 1) ++ " failed: " ++ e
    if continue_on_error then .ok (index, none, some error_msg)
    else .error e

/-- The parallel-mode task list
`[process_single_generation(r, i) for i, r in enumerate(request.requests)]`
as `asyncio.gather(..., return_exceptions=True)` returns it: every task is
awaited to completion whatever its siblings did, an exception becomes a value
(`.error`), and the list is in task (= input) order, not completion order. -/
def parallelItems (continue_on_error : Bool) (index : Nat) :
    List (Except String ResponseData) →
    List (Except String (Nat × Option ResponseData × Option String))
  | [] => []
  | o :: rest =>
    process_single_generation continue_on_error index o ::
      parallelItems continue_on_error (index + 1) rest

/-- The result-processing loop of parallel mode (lines 487-501), which walks
the gathered list in order appending to `results`/`errors` and bumping the
counters: an exception counts as failed with its message; a tuple carrying a
response counts as successful; a tuple without one counts as failed with its
recorded error message.  Returns `(successful, failed, results, errors)`. -/
def tallyCompleted :
    List (Except String (Nat × Option ResponseData × Option String)) →
    Nat × Nat × List (Option ResponseData) × List (Option String)
  | [] => (0, 0, [], [])
  | item :: rest =>
    let t := tallyCompleted rest
    match item with
    | .error e => (t.1, t.2.1 + 1, none :: t.2.2.1, some e :: t.2.2.2)
    | .ok (_, some result, _) =>
      (t.1 + 1, t.2.1, some result :: t.2.2.1, none :: t.2.2.2)
    | .ok (_, none, err) => (t.1, t.2.1 + 1, none :: t.2.2.1, err :: t.2.2.2)

/-- Parallel mode of `batch_generate_images` (lines 478-501). -/
def batch_parallel (continue_on_error : Bool)
    (outcomes : List (Except String ResponseData)) : BatchGenerationResponse :=
  let t := tallyCompleted (parallelItems continue_on_error 0 outcomes)
  { total := outcomes.length, successful := t.1, failed := t.2.1,
    results := t.2.2.1, errors := t.2.2.2 }

/-- Sequential mode of `batch_generate_images` (lines 503-518): items are
processed one at a time in order; a failure is recorded per item, and with
`continue_on_error=False` an `HTTPException` carrying the item's error
message is raised immediately, abandoning the loop (and the accumulators). -/
def batch_sequential_go (continue_on_error : Bool) (index : Nat) :
    List (Except String ResponseData) →
    Except String (Nat × Nat × List (Option ResponseData) × List (Option String))
  | [] => .ok (0, 0, [], [])
  | o :: rest =>
    match o with
    | .ok result =>
      match batch_sequential_go continue_on_error (index + 1) rest with
      | .ok (s, f, rs, es) => .ok (s + 1, f, some result :: rs, none :: es)
      | .error e => .error e
    | .error e =>
      let error_msg := "Generation " ++ toString (index + 1) ++ " failed: " ++ e
      if continue_on_error then
        match batch_sequential_go continue_on_error (index + 1) rest with
        | .ok (s, f, rs, es) => .ok (s, f + 1, none :: rs, some error_msg :: es)
        | .error e2 => .error e2
      else .error error_msg

/-- The `batch_generate_images` handler (lines 445-532), abstracted over the
per-item outcomes of the inner `generate_image` calls.  Any exception escaping
the processing loops is caught by the outer handler and re-raised as
`HTTPException(500, "Batch generation failed: ...")`, modelled as `.error` of
that detail string — in that case no `BatchGenerationResponse` is produced. -/
def batch_generate_images (parallel continue_on_error : Bool)
    (outcomes : List (Except String ResponseData)) :
    Except String BatchGenerationResponse :=
  if parallel then .ok (batch_parallel continue_on_error outcomes)
  else
    match batch_sequential_go continue_on_error 0 outcomes with
    | .ok (s, f, rs, es) =>
      .ok { total := outcomes.length, successful := s, failed := f,
            results := rs, errors := es }
    | .error e => .error ("Batch generation failed: " ++ e)

/-- The fixed fallback parameter dictionary installed when the intent
resolver raises (lines 229-237 of `generate_image`). -/
def defaultParams (prompt : String) : List (String × Option String) :=
  [("prompt", some prompt), ("camera_angle", some "eye-level"),
   ("fov", some "standard"), ("lighting", some "studio"),
   ("color_palette", some "vibrant"), ("composition", some "rule-of-thirds"),
   ("style", some "photorealistic")]

/-- The mode-dependent parameter-resolution step of `generate_image`
(lines 219-238 for `ai` mode; manual mode makes no resolver call and leaves
`reasoning = None`, line 297).  In `ai` mode the resolver is always invoked;
if it raises, the fixed defaults and the fallback reasoning note are used and
no error escapes.  Returns `(params, reasoning, events)`.  The resolved
`params` only feed the upstream call, whose outcome the environment already
fixes per attempt, so they are carried but not re-consumed by the model. -/
def resolveParams (env : Env) (req : GenerationRequest) :
    List (String × Option String) × Option String × List Event :=
  if req.mode = "ai" then
    match env.intentResult with
    | .ok (params, reasoning) => (params, reasoning, [Event.resolverCall])
    | .error _ =>
      (defaultParams req.prompt,
       some "Using optimized defaults (AI unavailable)", [Event.resolverCall])
  else ([], none, [])

/-- The `response_data` dictionary built on the success path of
`generate_image` (lines 318-327): completed status, the upstream result's
image reference and parameters, the computed quality score, the measured
duration, the mode-dependent reasoning and the retry count. -/
def mkResponse (env : Env) (reasoning : Option String) (result : GenResult)
    (retry_count : Nat) : ResponseData :=
  { id := env.newId, status := "completed", image_url := result.image_url,
    parameters := result.parameters,
    quality_score := some (_calculate_quality_score result.parameters result),
    generation_time := some env.genTime, reasoning := reasoning,
    cached := false, retry_count := retry_count }

/-- The `generate_image` handler (lines 170-344).  Control flow: compute the
fingerprint; consult the cache when `use_cache` (a valid hit returns the
cached payload immediately, marked `cached=True`); otherwise insert the
database record — created directly with `status="processing"` — resolve
parameters, run the retry loop around the upstream call, and either complete
(update the record to `completed` with result reference, score and timing,
then write the cache when `use_cache`) or catch the exhausted retries' error
in the outer handler (update the record to `failed` with the error message
and re-raise as `HTTPException(500, "Generation failed: ...")`).  Returns the
response-or-error, the resulting cache, and the event trace in program order.
The cache write records `env.now` where the code takes a fresh `utcnow()`;
no property below depends on the stored timestamp. -/
def generate_image (env : Env) (cache : Cache) (req : GenerationRequest) :
    Except String ResponseData × Cache × List Event :=
  let cache_key := _generate_cache_key req
  let looked := if req.use_cache then _get_cached_result cache cache_key env.now
                else (none, cache)
  match looked with
  | (some cached_result, cache1) =>
    (.ok { cached_result with cached := true }, cache1, [])
  | (none, cache1) =>
    let resolved := resolveParams env req
    let run := retryExecute env.genOutcome req.max_retries
    match run.1 with
    | .ok (result, retry_count) =>
      let response_data := mkResponse env resolved.2.1 result retry_count
      let cache2 := if req.use_cache
        then _cache_result cache1 cache_key response_data env.now else cache1
      let putEv := if req.use_cache then [Event.cachePut cache_key] else []
      (.ok response_data, cache2,
        Event.dbCreate "processing" :: resolved.2.2 ++ run.2
          ++ [Event.dbUpdate "completed" true true false] ++ putEv)
    | .error e =>
      (.error ("Generation failed: " ++ e), cache1,
        Event.dbCreate "processing" :: resolved.2.2 ++ run.2
          ++ [Event.dbUpdate "failed" false false true])

/-- Invariant of the result cache: every stored payload is a completed
response carrying a quality score (the `retry_count` field is part of every
payload by construction of `ResponseData`). -/
def completedOnly (c : Cache) : Bool :=
  c.all fun p => p.2.data.status == "completed" && p.2.data.quality_score.isSome

/-- Example cached payload used to instantiate the cache theorems. -/
def dEx : ResponseData :=
  { id := 1, status := "completed", image_url := some "http://img/1.png",
    parameters := [("prompt", some "a cat")], quality_score := some 1,
    generation_time := some 2, reasoning := none }

/-- Fully populated resolved-parameter dictionary, as produced on the
smart-default fallback path of `generate_image`. -/
def fullParamsEx : List (String × Option String) :=
  [("prompt", some "a cat"), ("camera_angle", some "eye-level"),
   ("fov", some "standard"), ("lighting", some "studio"),
   ("color_palette", some "vibrant"), ("composition", some "rule-of-thirds"),
   ("style", some "photorealistic")]

/-- Example successful upstream result. -/
def okResultEx : GenResult :=
  { image_url := some "http://img/1.png", parameters := fullParamsEx }

/-- Upstream stub that fails exactly once (on attempt 0) then succeeds. -/
def genOnceFail : Nat → Except String GenResult :=
  fun attempt => if attempt = 0 then .error "boom" else .ok okResultEx

/-- Upstream stub that always fails, with the attempt number in the message. -/
def genAlwaysFail : Nat → Except String GenResult :=
  fun attempt => .error ("fail " ++ toString attempt)

/-- Error messages of `genAlwaysFail`, as a function of the attempt. -/
def failMsg : Nat → String := fun attempt => "fail " ++ toString attempt

/-- Request used to instantiate the fingerprint theorem. -/
def reqA : GenerationRequest :=
  { prompt := "a red chair", mode := "manual", camera_angle := some "low-angle",
    use_cache := true, max_retries := 0, user_id := 1, project_id := none }

/-- Same semantic fields as `reqA`, different cache/retry/identity fields. -/
def reqB : GenerationRequest :=
  { prompt := "a red chair", mode := "manual", camera_angle := some "low-angle",
    use_cache := false, max_retries := 5, user_id := 42, project_id := some 7 }

/-- Request used to instantiate the `generate_image` theorems: `ai` mode with
the default `use_cache=True`, `max_retries=3`. -/
def reqC : GenerationRequest := { prompt := "a blue bird" }

/-- Environment used to instantiate the `generate_image` theorems: the
resolver succeeds and the first upstream attempt succeeds. -/
def envEx : Env :=
  { now := 200, intentResult := .ok (fullParamsEx, some "analysis"),
    genOutcome := fun _ => .ok okResultEx, newId := 1, genTime := 2 }

/-- A cache holding a fresh entry for `reqC`'s fingerprint. -/
def cacheEx : Cache := [(_generate_cache_key reqC, ⟨dEx, 100⟩)]

/-- Deleting a key from the cache produced by `_cache_result` for that same
key yields exactly the original cache with that key deleted: the freshly
stored entry is the only binding for the key. -/
theorem cacheDelete_cache_result (c : Cache) (k : String) (d : ResponseData)
    (T : Nat) : cacheDelete (_cache_result c k d T) k = cacheDelete c k := by
  simp [cacheDelete, _cache_result, List.filter_filter]

/-- C3: after `_cache_result` stores a payload at time `T`, `_get_cached_result`
at `T + Δ` returns the payload (cache untouched) when `Δ < CACHE_TTL`; when
`Δ ≥ CACHE_TTL` it returns `none` and its only side effect is deleting that
stale entry; and a key never written is absent and leaves the cache unchanged. -/
theorem cache_ttl_semantics (c : Cache) (k : String) (d : ResponseData)
    (T Δ : Nat) :
    (Δ < CACHE_TTL →
      _get_cached_result (_cache_result c k d T) k (T + Δ)
        = (some d, _cache_result c k d T))
    ∧ (CACHE_TTL ≤ Δ →
      _get_cached_result (_cache_result c k d T) k (T + Δ)
        = (none, cacheDelete c k))
    ∧ (cacheLookup c k = none →
      _get_cached_result c k (T + Δ) = (none, c)) := by
  refine ⟨fun h => ?_, fun h => ?_, fun h => ?_⟩
  · simp [_get_cached_result, cacheLookup, _cache_result, List.find?,
      Nat.add_sub_cancel_left, h]
  · rw [← cacheDelete_cache_result c k d T]
    simp [_get_cached_result, cacheLookup, _cache_result, List.find?,
      Nat.add_sub_cancel_left, Nat.not_lt.mpr h]
  · simp [_get_cached_result, h]

/-- Witness for `cache_ttl_semantics` at a concrete store/read pair. -/
theorem cache_ttl_semantics_witness :
    _get_cached_result (_cache_result [] "k" dEx 5) "k" (5 + 10)
      = (some dEx, _cache_result [] "k" dEx 5) :=
  (cache_ttl_semantics [] "k" dEx 5 10).1 (by decide)

/-- C4: the quality score computed by the code coincides with the formula of
the spec, always lies in `[0,1]`, is at least `0.9` for a parameter set with
at least six non-null entries and a usable image reference, and is exactly
`0.5` for an empty parameter set with no usable image.  As a Lean function it
is pure and total by construction, matching the code, which only reads its two
arguments. -/
theorem quality_score_spec (parameters : List (String × Option String))
    (result : GenResult) :
    _calculate_quality_score parameters result
      = spec_quality_score parameters result
    ∧ 0 ≤ _calculate_quality_score parameters result
    ∧ _calculate_quality_score parameters result ≤ 1
    ∧ (6 ≤ (parameters.filter fun p => p.2.isSome).length →
        pyTruthyStr result.image_url = true →
        9/10 ≤ _calculate_quality_score parameters result)
    ∧ (parameters = [] → pyTruthyStr result.image_url = false →
        _calculate_quality_score parameters result = 1/2) := by
  have hmin0 : (0:ℚ) ≤ min
      (((parameters.filter fun p => p.2.isSome).length : ℚ) * (5/100)) (3/10) :=
    le_min (by positivity) (by norm_num)
  have hmin3 : min
      (((parameters.filter fun p => p.2.isSome).length : ℚ) * (5/100)) (3/10)
      ≤ 3/10 := min_le_right _ _
  have hcode : _calculate_quality_score parameters result
      = min (1/2 + min (((parameters.filter fun p => p.2.isSome).length : ℚ)
          * (5/100)) (3/10)
        + (if pyTruthyStr result.image_url then (2:ℚ)/10 else 0)) 1 := by
    cases h : pyTruthyStr result.image_url <;>
      simp [_calculate_quality_score, h]
  have hS0 : (0:ℚ) ≤ 1/2 + min
      (((parameters.filter fun p => p.2.isSome).length : ℚ) * (5/100)) (3/10)
      + (if pyTruthyStr result.image_url then (2:ℚ)/10 else 0) := by
    split_ifs <;> linarith
  refine ⟨?_, ?_, ?_, fun h6 himg => ?_, fun hp himg => ?_⟩
  · rw [hcode]
    simp only [spec_quality_score]
    rw [max_eq_left hS0]
  · rw [hcode]
    exact le_min hS0 zero_le_one
  · rw [hcode]
    exact min_le_right _ _
  · have h6q : (6:ℚ) ≤ ((parameters.filter fun p => p.2.isSome).length : ℚ) := by
      exact_mod_cast h6
    have hcap : min
        (((parameters.filter fun p => p.2.isSome).length : ℚ) * (5/100)) (3/10)
        = 3/10 := min_eq_right (by nlinarith)
    rw [hcode, hcap, if_pos himg]
    rw [show (1:ℚ)/2 + 3/10 + 2/10 = 1 by norm_num, min_self]
    norm_num
  · subst hp
    rw [hcode, if_neg (by simp [himg])]
    simp only [List.filter_nil, List.length_nil, Nat.cast_zero, zero_mul,
      add_zero]
    rw [min_eq_left (by norm_num : (0:ℚ) ≤ 3/10), add_zero]
    exact min_eq_left (by norm_num)

/-- Witness for `quality_score_spec`: a fully populated parameter set with a
successful result scores at least `0.9`, and an empty parameter set with no
result scores exactly `0.5`. -/
theorem quality_score_spec_witness :
    9/10 ≤ _calculate_quality_score fullParamsEx okResultEx ∧
    _calculate_quality_score [] { image_url := none } = 1/2 :=
  ⟨(quality_score_spec fullParamsEx okResultEx).2.2.2.1 (by decide) (by decide),
   (quality_score_spec [] { image_url := none }).2.2.2.2 rfl rfl⟩

/-- C5: the fingerprint depends only on the prompt, the mode and the six
optional parameters.  Two requests that agree on these eight fields get equal
fingerprints whatever their `use_cache`, `max_retries`, `user_id` and
`project_id`; field insertion order cannot matter because the serialisation
emits the keys in a fixed sorted order (`json.dumps(..., sort_keys=True)`). -/
theorem fingerprint_semantic_function (r1 r2 : GenerationRequest)
    (hprompt : r1.prompt = r2.prompt) (hmode : r1.mode = r2.mode)
    (hcam : r1.camera_angle = r2.camera_angle) (hfov : r1.fov = r2.fov)
    (hlight : r1.lighting = r2.lighting)
    (hpal : r1.color_palette = r2.color_palette)
    (hcomp : r1.composition = r2.composition)
    (hstyle : r1.style = r2.style) :
    _generate_cache_key r1 = _generate_cache_key r2 := by
  simp [_generate_cache_key, hprompt, hmode, hcam, hfov, hlight, hpal,
    hcomp, hstyle]

/-- Witness for `fingerprint_semantic_function` on two concrete requests that
differ in every non-semantic field. -/
theorem fingerprint_semantic_function_witness :
    _generate_cache_key reqA = _generate_cache_key reqB :=
  fingerprint_semantic_function reqA reqB rfl rfl rfl rfl rfl rfl rfl rfl

/-- A successful attempt breaks out of the loop immediately, whatever the
remaining budget. -/
theorem retryGo_ok (gen : Nat → Except String GenResult) (a rc remaining : Nat)
    (r : GenResult) (h : gen a = .ok r) :
    retryGo gen a rc remaining = (.ok (r, rc), [.upstream a]) := by
  cases remaining <;> simp [retryGo, h]

/-- Shape of a retry run with `j` failures followed by a success, started at
attempt `a` with `retry_count = rc` and at least `j` iterations remaining. -/
theorem retryGo_succeeds (j : Nat) :
    ∀ (gen : Nat → Except String GenResult) (e : Nat → String) (r : GenResult)
      (a rc remaining : Nat), j ≤ remaining →
      (∀ i, i < j → gen (a + i) = .error (e (a + i))) → gen (a + j) = .ok r →
      retryGo gen a rc remaining
        = (.ok (r, if j = 0 then rc else a + j), attemptTrace a j) := by
  induction j with
  | zero =>
    intro gen e r a rc remaining _ _ hsucc
    rw [retryGo_ok gen a rc remaining r (by simpa using hsucc)]
    simp [attemptTrace]
  | succ j ih =>
    intro gen e r a rc remaining hle hfail hsucc
    cases remaining with
    | zero => omega
    | succ rem =>
      have hfa : gen a = .error (e a) := by simpa using hfail 0 (by omega)
      have ihh := ih gen e r (a + 1) (a + 1) rem (by omega)
        (fun i hi => by
          rw [show a + 1 + i = a + (i + 1) by omega]
          exact hfail (i + 1) (by omega))
        (by rw [show a + 1 + j = a + (j + 1) by omega]; exact hsucc)
      have hrc : (if j = 0 then a + 1 else a + 1 + j) = a + (j + 1) := by
        split_ifs <;> omega
      simp only [retryGo, hfa, ihh, hrc, attemptTrace]
      simp

/-- Shape of a retry run in which every attempt fails and exactly `j`
iterations remain after the current attempt: the loop makes `j + 1` attempts
and re-raises the error of the last one. -/
theorem retryGo_all_fail (j : Nat) :
    ∀ (gen : Nat → Except String GenResult) (e : Nat → String) (a rc : Nat),
      (∀ i, i ≤ j → gen (a + i) = .error (e (a + i))) →
      retryGo gen a rc j = (.error (e (a + j)), attemptTrace a j) := by
  induction j with
  | zero =>
    intro gen e a rc hfail
    have hfa : gen a = .error (e a) := by simpa using hfail 0 (by omega)
    simp [retryGo, hfa, attemptTrace]
  | succ j ih =>
    intro gen e a rc hfail
    have hfa : gen a = .error (e a) := by simpa using hfail 0 (by omega)
    have ihh := ih gen e (a + 1) (a + 1)
      (fun i hi => by
        rw [show a + 1 + i = a + (i + 1) by omega]
        exact hfail (i + 1) (by omega))
    simp only [retryGo, hfa, ihh, attemptTrace]
    rw [show a + 1 + j = a + (j + 1) by omega]

/-- The trace of a run with `j` failures contains exactly `j + 1` upstream
attempts. -/
theorem attemptTrace_countP (first j : Nat) :
    (attemptTrace first j).countP (fun ev => match ev with
      | .upstream _ => true | _ => false) = j + 1 := by
  induction j generalizing first with
  | zero => simp [attemptTrace, List.countP_cons]
  | succ j ih => simp [attemptTrace, List.countP_cons, ih]

/-- The sleeps of a run with `j` failures are `2 ^ attempt` for each failed
attempt in order. -/
theorem attemptTrace_sleeps (first j : Nat) :
    (attemptTrace first j).filterMap (fun ev => match ev with
      | .sleep t => some t | _ => none)
      = (List.range j).map (fun i => 2 ^ (first + i)) := by
  induction j generalizing first with
  | zero => simp [attemptTrace]
  | succ j ih =>
    have hfun : ((fun i => 2 ^ (first + i)) ∘ Nat.succ)
        = (fun i => 2 ^ (first + 1 + i)) := by
      funext i
      simp only [Function.comp_apply]
      congr 1
      omega
    rw [List.range_succ_eq_map, List.map_cons, List.map_map, hfun]
    simp only [attemptTrace, List.filterMap_cons, ih (first + 1)]
    simp

/-- C1 (amended): the retry loop.  If the upstream call fails on the first
`k` attempts and succeeds on attempt `k`, with `max_retries ≥ k`, the loop
succeeds reporting `retry_count = k` — the number of FAILED attempts, one
less than the `k + 1` attempts made.  If every attempt fails and
`max_retries = k`, the error of the last attempt is re-raised after exactly
`k + 1` upstream attempts, with a `2 ^ attempt` backoff sleep between
consecutive attempts (attempt zero-indexed, no sleep after the last). -/
theorem retry_executor_policy (gen : Nat → Except String GenResult)
    (e : Nat → String) (r : GenResult) (k max_retries : Nat) :
    ((∀ i, i < k → gen i = .error (e i)) → gen k = .ok r → k ≤ max_retries →
      retryExecute gen max_retries = (.ok (r, k), attemptTrace 0 k))
    ∧ ((∀ i, i ≤ k → gen i = .error (e i)) → max_retries = k →
      retryExecute gen max_retries = (.error (e k), attemptTrace 0 k))
    ∧ (attemptTrace 0 k).countP (fun ev => match ev with
        | .upstream _ => true | _ => false) = k + 1
    ∧ (attemptTrace 0 k).filterMap (fun ev => match ev with
        | .sleep t => some t | _ => none)
        = (List.range k).map (fun i => 2 ^ i) := by
  refine ⟨fun hfail hsucc hk => ?_, fun hfail hmr => ?_,
    attemptTrace_countP 0 k, by simpa using attemptTrace_sleeps 0 k⟩
  · rw [retryExecute, retryGo_succeeds k gen e r 0 0 max_retries hk
      (fun i hi => by simpa using hfail i hi) (by simpa using hsucc)]
    have : (if k = 0 then 0 else 0 + k) = k := by split_ifs <;> omega
    rw [this]
  · rw [hmr]
    rw [retryExecute, retryGo_all_fail k gen e 0 0
      (fun i hi => by simpa using hfail i hi)]
    simp

/-- C1 counterexample: with an operation that fails exactly once (`k = 1`) and
then succeeds, and `max_retries = 3 ≥ k`, the response's `retry_count` is `1`,
not `k + 1 = 2` as the claim states. -/
theorem retry_count_claim_counterexample :
    (retryExecute genOnceFail 3).1 = .ok (okResultEx, 1) ∧
    (retryExecute genOnceFail 3).1 ≠ .ok (okResultEx, 2) := by
  constructor
  · decide
  · decide

/-- Witness for `retry_executor_policy` on the two concrete stubs. -/
theorem retry_executor_policy_witness :
    retryExecute genOnceFail 3 = (.ok (okResultEx, 1), attemptTrace 0 1) ∧
    retryExecute genAlwaysFail 2 = (.error (failMsg 2), attemptTrace 0 2) :=
  ⟨(retry_executor_policy genOnceFail (fun _ => "boom") okResultEx 1 3).1
      (by decide) (by decide) (by decide),
   (retry_executor_policy genAlwaysFail failMsg okResultEx 2 2).2.1
      (by decide) rfl⟩

/-- Characterisation of the parallel tally: counts sum to the input length,
the per-item result list is exactly the input outcomes with errors blanked
(`Except.toOption`) in input order, and the error list has one slot per
input. -/
theorem parallel_tally_spec (continue_on_error : Bool) :
    ∀ (index : Nat) (outcomes : List (Except String ResponseData)),
      (tallyCompleted (parallelItems continue_on_error index outcomes)).1
        + (tallyCompleted (parallelItems continue_on_error index outcomes)).2.1
        = outcomes.length
      ∧ (tallyCompleted (parallelItems continue_on_error index outcomes)).2.2.1
        = outcomes.map Except.toOption
      ∧ (tallyCompleted
          (parallelItems continue_on_error index outcomes)).2.2.2.length
        = outcomes.length := by
  intro index outcomes
  induction outcomes generalizing index with
  | nil => simp [parallelItems, tallyCompleted]
  | cons o rest ih =>
    obtain ⟨ih1, ih2, ih3⟩ := ih (index + 1)
    cases o with
    | ok r =>
      refine ⟨?_, ?_, ?_⟩ <;>
        simp [parallelItems, tallyCompleted, process_single_generation,
          ih1, ih2, ih3, Except.toOption] <;> omega
    | error e =>
      cases continue_on_error <;> refine ⟨?_, ?_, ?_⟩ <;>
        simp [parallelItems, tallyCompleted, process_single_generation,
          ih1, ih2, ih3, Except.toOption] <;> omega

/-- C6: in parallel mode every per-item operation contributes to the final
response whatever the other items did (the model consumes the full gathered
list — `gather(..., return_exceptions=True)` cancels nothing), the outcome
lists have one slot per input request with the i-th slot derived from the
i-th request (in input order, successes as `some`, failures as `none` with
the error recorded), and `successful + failed = total = N`. -/
theorem batch_parallel_invariants (continue_on_error : Bool)
    (outcomes : List (Except String ResponseData)) :
    (batch_parallel continue_on_error outcomes).total = outcomes.length
    ∧ (batch_parallel continue_on_error outcomes).successful
        + (batch_parallel continue_on_error outcomes).failed
        = (batch_parallel continue_on_error outcomes).total
    ∧ (batch_parallel continue_on_error outcomes).results
        = outcomes.map Except.toOption
    ∧ (batch_parallel continue_on_error outcomes).results.length
        = outcomes.length
    ∧ (batch_parallel continue_on_error outcomes).errors.length
        = outcomes.length := by
  obtain ⟨h1, h2, h3⟩ := parallel_tally_spec continue_on_error 0 outcomes
  exact ⟨rfl, h1, h2, by simp [batch_parallel, h2], h3⟩

/-- C7 counterexample: an empty batch request list is rejected by validation
(`min_items=1`), contradicting the claim that it is accepted. -/
theorem empty_batch_rejected_counterexample : batchRequestsValid [] = false :=
  rfl

/-- C7 (amended): an empty request list is rejected by request validation
(`min_items=1`) and never reaches the handler; the handler body itself, run
on an empty list in either mode, would return
`{total: 0, successful: 0, failed: 0}` with empty outcome sequences. -/
theorem empty_batch_behaviour :
    batchRequestsValid [] = false
    ∧ ∀ parallel continue_on_error : Bool,
        batch_generate_images parallel continue_on_error []
          = .ok { total := 0, successful := 0, failed := 0,
                  results := [], errors := [] } := by
  refine ⟨rfl, fun parallel continue_on_error => ?_⟩
  cases parallel <;> rfl

/-- Aborting run of the sequential loop: with `continue_on_error=False`, a
prefix of successes followed by a failure makes `batch_sequential_go` raise
that item's error message, whatever comes after it. -/
theorem batch_sequential_go_abort (e : String)
    (post : List (Except String ResponseData)) :
    ∀ (pre : List ResponseData) (index : Nat),
      batch_sequential_go false index (pre.map Except.ok ++ .error e :: post)
        = .error ("Generation " ++ toString (index + pre.length + 1)
            ++ " failed: " ++ e) := by
  intro pre
  induction pre with
  | nil => intro index; simp [batch_sequential_go]
  | cons r pre ih =>
    intro index
    simp only [List.map_cons, List.cons_append, batch_sequential_go,
      List.append_eq, ih (index + 1)]
    rw [show index + 1 + pre.length + 1 = index + (pre.length + 1) + 1 by omega]
    simp

/-- C2 counterexample: a sequential batch with `continue_on_error=False`
whose first item fails does not return an outcome for every index — the call
raises a batch-level error (HTTP 500) and the second item is neither reported
failed nor marked not-attempted. -/
theorem sequential_abort_counterexample :
    batch_generate_images false false [.error "boom", .ok dEx]
      = .error "Batch generation failed: Generation 1 failed: boom" := by
  decide

/-- C2 (amended): in a sequential batch with `continue_on_error=False`, if
every item before index `i` succeeds and item `i` fails, processing stops at
item `i` and the batch call raises `HTTPException(500)` whose detail wraps
item `i`'s error message; no `BatchGenerationResponse` is returned, so
earlier results are discarded and later items get no "not attempted" marker.
(The statement holds for every `post`, which is exactly the fact that the
items after `i` are never examined.) -/
theorem sequential_abort_behaviour (pre : List ResponseData) (e : String)
    (post : List (Except String ResponseData)) :
    batch_generate_images false false (pre.map Except.ok ++ .error e :: post)
      = .error ("Batch generation failed: "
          ++ ("Generation " ++ toString (pre.length + 1) ++ " failed: " ++ e)) := by
  have h := batch_sequential_go_abort e post pre 0
  rw [show (0 : Nat) + pre.length + 1 = pre.length + 1 by omega] at h
  simp [batch_generate_images, h]

/-- Every event of the resolution step is a resolver call. -/
theorem resolveParams_events (env : Env) (req : GenerationRequest) :
    ∀ ev ∈ (resolveParams env req).2.2, ev = Event.resolverCall := by
  intro ev hev
  unfold resolveParams at hev
  split at hev
  · cases h : env.intentResult with
    | ok pr => rw [h] at hev; cases pr; simpa using hev
    | error e => rw [h] at hev; simpa using hev
  · simp at hev

/-- Every event of the retry loop is an upstream attempt or a backoff
sleep. -/
theorem retryGo_events (gen : Nat → Except String GenResult) :
    ∀ (remaining attempt rc : Nat), ∀ ev ∈ (retryGo gen attempt rc remaining).2,
      (∃ i, ev = Event.upstream i) ∨ (∃ t, ev = Event.sleep t) := by
  intro remaining
  induction remaining with
  | zero =>
    intro attempt rc ev hev
    unfold retryGo at hev
    cases h : gen attempt <;> rw [h] at hev <;> simp at hev <;>
      exact Or.inl ⟨attempt, hev⟩
  | succ rem ih =>
    intro attempt rc ev hev
    unfold retryGo at hev
    cases h : gen attempt with
    | ok r =>
      rw [h] at hev
      simp at hev
      exact Or.inl ⟨attempt, hev⟩
    | error e =>
      rw [h] at hev
      simp at hev
      rcases hev with h1 | h1 | h1
      · exact Or.inl ⟨attempt, h1⟩
      · exact Or.inr ⟨2 ^ attempt, h1⟩
      · exact ih (attempt + 1) (attempt + 1) ev h1

/-- Unfolding of `generate_image` on a valid cache hit. -/
theorem generate_image_hit (env : Env) (cache cache1 : Cache)
    (req : GenerationRequest) (d : ResponseData)
    (hlook : (if req.use_cache then
        _get_cached_result cache (_generate_cache_key req) env.now
      else (none, cache)) = (some d, cache1)) :
    generate_image env cache req
      = (.ok { d with cached := true }, cache1, []) := by
  simp only [generate_image, hlook]

/-- Unfolding of `generate_image` on a cache miss, in terms of the retry
loop's outcome. -/
theorem generate_image_miss (env : Env) (cache cache1 : Cache)
    (req : GenerationRequest)
    (hlook : (if req.use_cache then
        _get_cached_result cache (_generate_cache_key req) env.now
      else (none, cache)) = (none, cache1)) :
    generate_image env cache req
      = match (retryExecute env.genOutcome req.max_retries).1 with
        | .ok (result, retry_count) =>
          (.ok (mkResponse env (resolveParams env req).2.1 result retry_count),
           (if req.use_cache then
              _cache_result cache1 (_generate_cache_key req)
                (mkResponse env (resolveParams env req).2.1 result retry_count)
                env.now
            else cache1),
           Event.dbCreate "processing" :: (resolveParams env req).2.2
             ++ (retryExecute env.genOutcome req.max_retries).2
             ++ [Event.dbUpdate "completed" true true false]
             ++ (if req.use_cache
                 then [Event.cachePut (_generate_cache_key req)] else []))
        | .error e =>
          (.error ("Generation failed: " ++ e), cache1,
           Event.dbCreate "processing" :: (resolveParams env req).2.2
             ++ (retryExecute env.genOutcome req.max_retries).2
             ++ [Event.dbUpdate "failed" false false true]) := by
  simp only [generate_image, hlook]

/-- The three possible results of a cache read: absent key (cache unchanged),
stale entry (entry evicted), or valid entry (payload returned, cache
unchanged). -/
theorem get_cached_result_cases (c : Cache) (k : String) (now : Nat) :
    _get_cached_result c k now = (none, c)
    ∨ _get_cached_result c k now = (none, cacheDelete c k)
    ∨ ∃ entry, cacheLookup c k = some entry
        ∧ _get_cached_result c k now = (some entry.data, c) := by
  unfold _get_cached_result
  cases h : cacheLookup c k with
  | none => exact Or.inl rfl
  | some entry =>
    by_cases hf : now - entry.timestamp < CACHE_TTL
    · exact Or.inr (Or.inr ⟨entry, rfl, by simp [hf]⟩)
    · exact Or.inr (Or.inl (by simp [hf]))

/-- Deleting a key preserves the completed-only cache invariant. -/
theorem completedOnly_cacheDelete (c : Cache) (k : String)
    (h : completedOnly c = true) : completedOnly (cacheDelete c k) = true := by
  simp only [completedOnly, cacheDelete, List.all_eq_true] at *
  intro p hp
  exact h p (List.mem_of_mem_filter hp)

/-- Storing a completed, scored payload preserves the completed-only cache
invariant. -/
theorem completedOnly_cache_result (c : Cache) (k : String) (d : ResponseData)
    (now : Nat) (hc : completedOnly c = true) (hd : d.status = "completed")
    (hq : d.quality_score.isSome = true) :
    completedOnly (_cache_result c k d now) = true := by
  simp only [completedOnly, _cache_result, List.all_cons, Bool.and_eq_true]
  exact ⟨⟨by simp [hd], hq⟩, completedOnly_cacheDelete c k hc⟩

/-- C9: a valid (unexpired) cache hit with `use_cache=True` makes
`generate_image` return the cached payload immediately, marked `cached=True`:
the event trace is empty — no database record is created, the intent resolver
is not invoked, no upstream call is made — and the cache is returned
unchanged. -/
theorem cache_hit_frame (env : Env) (cache : Cache) (req : GenerationRequest)
    (entry : CacheEntry) (huse : req.use_cache = true)
    (hfound : cacheLookup cache (_generate_cache_key req) = some entry)
    (hfresh : env.now - entry.timestamp < CACHE_TTL) :
    generate_image env cache req
      = (.ok { entry.data with cached := true }, cache, []) := by
  simp [generate_image, huse, _get_cached_result, hfound, hfresh]

/-- Witness for `cache_hit_frame` on a concrete fresh entry. -/
theorem cache_hit_frame_witness :
    generate_image envEx cacheEx reqC
      = (.ok { dEx with cached := true }, cacheEx, []) :=
  cache_hit_frame envEx cacheEx reqC ⟨dEx, 100⟩ rfl (by decide) (by decide)

/-- C8 counterexample: on a cache miss the generation record is created
directly in status `processing` — the very first observable event — and no
record in status `pending` ever exists, contradicting the claim that the
record is created in `pending` first. -/
theorem record_created_processing_counterexample :
    (generate_image envEx [] reqC).2.2.head?
        = some (Event.dbCreate "processing")
    ∧ Event.dbCreate "pending" ∉ (generate_image envEx [] reqC).2.2 := by
  decide

/-- C8 (amended): for every accepted request that misses the cache, the
generation record is created in state `processing` (not `pending`) before any
network call — record creation is the first event of the trace, every event
before the terminal update is a resolver call, an upstream attempt or a
backoff sleep — and the record then transitions to exactly one terminal
state, `completed` (result reference and score set) on success or `failed`
(error detail set) on failure, after which it is not mutated: at most a
cache write follows, and only on success. -/
theorem record_lifecycle (env : Env) (cache : Cache) (req : GenerationRequest)
    (hmiss : (if req.use_cache then
        _get_cached_result cache (_generate_cache_key req) env.now
      else (none, cache)).1 = none) :
    ∃ mid put,
      (generate_image env cache req).2.2
        = Event.dbCreate "processing" :: mid
          ++ [(match (generate_image env cache req).1 with
              | .ok _ => Event.dbUpdate "completed" true true false
              | .error _ => Event.dbUpdate "failed" false false true)]
          ++ put
      ∧ (∀ ev ∈ mid, ev = Event.resolverCall ∨ (∃ i, ev = Event.upstream i)
          ∨ (∃ t, ev = Event.sleep t))
      ∧ (put = [] ∨ ∃ k, put = [Event.cachePut k])
      ∧ (∀ e, (generate_image env cache req).1 = .error e → put = []) := by
  rcases hlook : (if req.use_cache then
      _get_cached_result cache (_generate_cache_key req) env.now
    else (none, cache)) with ⟨o, cache1⟩
  rw [hlook] at hmiss
  simp only at hmiss
  subst hmiss
  have hmids : ∀ ev ∈ (resolveParams env req).2.2
      ++ (retryExecute env.genOutcome req.max_retries).2,
      ev = Event.resolverCall ∨ (∃ i, ev = Event.upstream i)
        ∨ (∃ t, ev = Event.sleep t) := by
    intro ev hev
    rcases List.mem_append.mp hev with h | h
    · exact Or.inl (resolveParams_events env req ev h)
    · rcases retryGo_events env.genOutcome req.max_retries 0 0 ev h with
        h1 | h1
      · exact Or.inr (Or.inl h1)
      · exact Or.inr (Or.inr h1)
  rw [generate_image_miss env cache cache1 req hlook]
  cases hrun : (retryExecute env.genOutcome req.max_retries).1 with
  | ok pair =>
    obtain ⟨result, retry_count⟩ := pair
    refine ⟨(resolveParams env req).2.2
        ++ (retryExecute env.genOutcome req.max_retries).2,
      if req.use_cache then [Event.cachePut (_generate_cache_key req)]
        else [], ?_, hmids, ?_, ?_⟩
    · simp [List.append_assoc]
    · cases req.use_cache
      · exact Or.inl rfl
      · exact Or.inr ⟨_, rfl⟩
    · intro e he
      simp at he
  | error err =>
    refine ⟨(resolveParams env req).2.2
        ++ (retryExecute env.genOutcome req.max_retries).2,
      [], ?_, hmids, Or.inl rfl, fun _ _ => rfl⟩
    simp [List.append_assoc]

/-- Witness for `record_lifecycle` on a concrete cache-missing run. -/
theorem record_lifecycle_witness :
    ∃ mid put,
      (generate_image envEx [] reqC).2.2
        = Event.dbCreate "processing" :: mid
          ++ [(match (generate_image envEx [] reqC).1 with
              | .ok _ => Event.dbUpdate "completed" true true false
              | .error _ => Event.dbUpdate "failed" false false true)]
          ++ put
      ∧ (∀ ev ∈ mid, ev = Event.resolverCall ∨ (∃ i, ev = Event.upstream i)
          ∨ (∃ t, ev = Event.sleep t))
      ∧ (put = [] ∨ ∃ k, put = [Event.cachePut k])
      ∧ (∀ e, (generate_image envEx [] reqC).1 = .error e → put = []) :=
  record_lifecycle envEx [] reqC (by decide)

/-- C10: only completed generations are ever written to the result cache.
The completed-only invariant (`status = "completed"` with a quality score
attached; `retry_count` is carried by every payload) is preserved by every
`generate_image` run, and on the failure path nothing is stored: the trace
carries no cache write and every entry of the resulting cache was already in
the input cache. -/
theorem cache_completed_only (env : Env) (cache : Cache)
    (req : GenerationRequest) (hinv : completedOnly cache = true) :
    completedOnly (generate_image env cache req).2.1 = true
    ∧ ∀ e, (generate_image env cache req).1 = .error e →
        (∀ k, Event.cachePut k ∉ (generate_image env cache req).2.2)
        ∧ ∀ p ∈ (generate_image env cache req).2.1, p ∈ cache := by
  have hnoput : ∀ (A B : List Event) (k : String),
      (∀ ev ∈ A, ev = Event.resolverCall) →
      (∀ ev ∈ B, (∃ i, ev = Event.upstream i) ∨ (∃ t, ev = Event.sleep t)) →
      Event.cachePut k ∉ Event.dbCreate "processing" :: A ++ B
        ++ [Event.dbUpdate "failed" false false true] := by
    intro A B k hA hB hk
    have hne : ∀ ev ∈ Event.dbCreate "processing" :: A ++ B
        ++ [Event.dbUpdate "failed" false false true],
        ev ≠ Event.cachePut k := by
      intro ev hev
      rcases List.mem_cons.mp hev with h | hev2
      · subst h; simp
      rcases List.mem_append.mp hev2 with h12 | h3
      · rcases List.mem_append.mp h12 with h1 | h2
        · have := hA _ h1; subst this; simp
        · rcases hB _ h2 with ⟨i, hi⟩ | ⟨t, ht⟩
          · subst hi; simp
          · subst ht; simp
      · have := List.mem_singleton.mp h3; subst this; simp
    exact hne _ hk rfl
  have hBev := retryGo_events env.genOutcome req.max_retries 0 0
  have hAev := resolveParams_events env req
  have hcases : (∃ cache1,
      (if req.use_cache then
          _get_cached_result cache (_generate_cache_key req) env.now
        else (none, cache)) = (none, cache1)
      ∧ completedOnly cache1 = true ∧ ∀ p ∈ cache1, p ∈ cache)
      ∨ ∃ d, generate_image env cache req = (.ok d, cache, []) := by
    cases huse : req.use_cache with
    | false => exact Or.inl ⟨cache, by simp [huse], hinv, fun p hp => hp⟩
    | true =>
      rcases get_cached_result_cases cache (_generate_cache_key req) env.now
        with hget | hget | ⟨entry, hfound, hget⟩
      · exact Or.inl ⟨cache, by simp [huse, hget], hinv, fun p hp => hp⟩
      · exact Or.inl ⟨cacheDelete cache (_generate_cache_key req),
          by simp [huse, hget], completedOnly_cacheDelete _ _ hinv,
          fun p hp => List.mem_of_mem_filter hp⟩
      · exact Or.inr ⟨{ entry.data with cached := true },
          generate_image_hit env cache cache req entry.data
            (by simp [huse, hget])⟩
  rcases hcases with ⟨cache1, hlook, hc1, hsub⟩ | ⟨d, hg⟩
  · rw [generate_image_miss env cache cache1 req hlook]
    cases hrun : (retryExecute env.genOutcome req.max_retries).1 with
    | ok pair =>
      obtain ⟨result, retry_count⟩ := pair
      constructor
      · by_cases huse : req.use_cache = true
        · simp only [huse, if_true]
          exact completedOnly_cache_result _ _ _ _ hc1 rfl rfl
        · simp only [huse, if_false]
          simpa using hc1
      · intro e he
        simp at he
    | error err =>
      refine ⟨hc1, fun e he => ⟨fun k => ?_, fun p hp => hsub p (by simpa using hp)⟩⟩
      simpa using hnoput _ _ k hAev hBev
  · rw [hg]
    exact ⟨hinv, fun e he => by simp at he⟩

/-- Witness for `cache_completed_only` on a concrete run over the empty
cache. -/
theorem cache_completed_only_witness :
    completedOnly (generate_image envEx [] reqC).2.1 = true
    ∧ ∀ e, (generate_image envEx [] reqC).1 = .error e →
        (∀ k, Event.cachePut k ∉ (generate_image envEx [] reqC).2.2)
        ∧ ∀ p ∈ (generate_image envEx [] reqC).2.1, p ∈ ([] : Cache) :=
  cache_completed_only envEx [] reqC (by decide)

end FiboGen
